import Mathlib

/-!
Verification of `FP_daily_project_name_comparison.py`, a daily batch job that
fetches distinct project names from a database, compares them with the
previous day's CSV snapshot, persists today's snapshot, and emails a summary.

The script is embedded shallowly:

* a CSV snapshot file is a `List String` of raw cells (the `project_names`
  column); an absent file is `none`;
* `pandas.read_csv` turns a cell into a missing value (NaN) exactly when the
  raw field is one of the default NA sentinels (in particular, the empty
  field); this is `parseCell`;
* `load_csv` mirrors the Python function of the same name (file-existence
  check, column read, `dropna`);
* `compare_csvs` mirrors the diff: normalized key sets (strip + lower) and
  the rows of the report DataFrame as `(name, status)` pairs;
* the top-level script body (lines 167-180) is `run`, with the outcomes of
  the fallible I/O steps passed in explicitly: `fetched = none` models
  `fetch_project_names` returning `None` after a caught exception, and
  `saveOk = false` models `to_csv` raising (the script has no handler
  there, so the run crashes before `send_email`).
-/

/-- Default missing-value sentinels of `pandas.read_csv`: a raw CSV field
equal to one of these is read as NaN.  The empty string is the empty field. -/
def naValues : List String :=
  ["", "#N/A", "#N/A N/A", "#NA", "-1.#IND", "-1.#QNAN", "-NaN", "-nan",
   "1.#IND", "1.#QNAN", "<NA>", "N/A", "NA", "NULL", "NaN", "None",
   "n/a", "nan", "null"]

/-- Reading one CSV cell with `pd.read_csv(..., dtype=str)`: NA sentinels
become missing (`none`), anything else is kept verbatim. -/
def parseCell (s : String) : Option String :=
  if s ∈ naValues then none else some s

/-- Embeds `load_csv` (source lines 98-106): if the file exists, read the
`project_names` column and drop the missing entries (`dropna`); if the file
is absent, return the empty frame. -/
def load_csv (file : Option (List String)) : List String :=
  match file with
  | none => []
  | some cells => cells.filterMap parseCell

/-- Python `str` whitespace as far as `strip()` is concerned (ASCII part):
space, tab, newline, carriage return, vertical tab, form feed. -/
def isSpaceChar (c : Char) : Bool :=
  c == ' ' || c == '\t' || c == '\n' || c == '\r' || c == '\x0b' || c == '\x0c'

/-- Drops the leading whitespace characters. -/
def dropLeadingSpaces : List Char → List Char
  | [] => []
  | c :: cs => if isSpaceChar c then dropLeadingSpaces cs else c :: cs

/-- Drops leading and trailing whitespace (the trailing side via reversal). -/
def stripChars (cs : List Char) : List Char :=
  (dropLeadingSpaces (dropLeadingSpaces cs).reverse).reverse

/-- Embeds Python `str.strip()`: surrounding whitespace removed. -/
def stripName (s : String) : String := ⟨stripChars s.data⟩

/-- Embeds Python `str.lower()` (character-wise lower-casing). -/
def lowerName (s : String) : String := ⟨s.data.map Char.toLower⟩

/-- Embeds the identity normalization `str.strip().str.lower()` used at
source lines 113-114 and 120-121. -/
def normalizeName (s : String) : String :=
  lowerName (stripName s)

/-- Embeds `added_projects = new_projects_normalized - old_projects_normalized`
(source lines 113-116): the Python `set`s become `Finset`s. -/
def addedKeys (newL oldL : List String) : Finset String :=
  (newL.map normalizeName).toFinset \ (oldL.map normalizeName).toFinset

/-- Embeds `removed_projects = old_projects_normalized - new_projects_normalized`
(source line 117). -/
def removedKeys (newL oldL : List String) : Finset String :=
  (oldL.map normalizeName).toFinset \ (newL.map normalizeName).toFinset

/-- Embeds `compare_csvs` (source lines 109-130): `diff_df` is the
concatenation of the rows of `new_df` whose normalized name is an added key,
tagged `"Added"`, with the rows of `old_df` whose normalized name is a
removed key, tagged `"Removed"`.  The DataFrame filters keep every matching
row, in source order. -/
def compare_csvs (newL oldL : List String) : List (String × String) :=
  ((newL.filter (fun s => normalizeName s ∈ addedKeys newL oldL)).map
      (fun s => (s, "Added"))) ++
  ((oldL.filter (fun s => normalizeName s ∈ removedKeys newL oldL)).map
      (fun s => (s, "Removed")))

/-- Lexicographic codepoint comparison of character lists, the order Python
uses on strings. -/
def ltChars : List Char → List Char → Bool
  | [], [] => false
  | [], _ :: _ => true
  | _ :: _, [] => false
  | c :: cs, d :: ds => if c < d then true else if d < c then false else ltChars cs ds

/-- Python string less-or-equal: `s <= t` iff not `t < s`. -/
def leName (s t : String) : Bool := !(ltChars t.data s.data)

/-- Insertion of a string into a list sorted ascending (codepoint order, as
Python string comparison under `sort_values`). -/
def insertSorted (s : String) : List String → List String
  | [] => [s]
  | t :: ts => if leName s t then s :: t :: ts else t :: insertSorted s ts

/-- Ascending sort of the names, modelling
`new_data.sort_values(by="project_names")` (source line 175). -/
def sortNames : List String → List String
  | [] => []
  | s :: ss => insertSorted s (sortNames ss)

/-- Embeds the snapshot save (source lines 175-176): sort ascending, then
`to_csv` writes the column one value per row; the written file is the sorted
list of raw cells. -/
def save_csv (names : List String) : List String :=
  sortNames names

/-- Splitting a character list on commas, as Python `raw.split(",")`: the
empty input yields one empty field. -/
def splitOnComma : List Char → List (List Char)
  | [] => [[]]
  | c :: cs =>
    if c = ',' then [] :: splitOnComma cs
    else
      match splitOnComma cs with
      | [] => [[c]]
      | g :: gs => (c :: g) :: gs

/-- Embeds the recipient-list resolution (source line 51):
`EMAIL_RECEIVER = [email.strip() for email in raw.split(",") if email.strip()]`. -/
def parseReceivers (raw : String) : List String :=
  ((splitOnComma raw.data).map (fun cs => (⟨stripChars cs⟩ : String))).filter
    (fun e => e ≠ "")

/-- What `send_email` (source lines 133-164) is invoked with: the resolved
recipient list, the total count, and the diff rows that are rendered into
the body.  The SMTP attempt itself is wrapped in try/except in the source,
so delivery failure never changes control flow. -/
structure EmailAttempt where
  recipients : List String
  total : Nat
  changes : List (String × String)
  deriving DecidableEq, Repr

/-- Observable outcomes of one run of the script body (source lines 167-180):
the snapshot file written (if any), the email attempt made (if any), and
whether the run died on an uncaught exception. -/
structure RunResult where
  savedFile : Option (List String)
  emailAttempt : Option EmailAttempt
  crashed : Bool
  deriving DecidableEq, Repr

/-- Embeds the top-level orchestration (source lines 167-180).
`receiverRaw` is the `EMAIL_RECEIVER` environment value, `fetched` the
result of `fetch_project_names` (`none` after a caught fetch error),
`yesterdayFile` the content of yesterday's snapshot file (`none` if absent),
and `saveOk` whether the unguarded `to_csv` call succeeds.  When the fetch
failed the guard `if new_data is not None` skips save and email; when the
save raises, the script crashes before `send_email`; otherwise the email is
attempted with `total_projects = len(new_data)` and the diff rows. -/
def run (receiverRaw : String) (fetched : Option (List String))
    (yesterdayFile : Option (List String)) (saveOk : Bool) : RunResult :=
  match fetched with
  | none => { savedFile := none, emailAttempt := none, crashed := false }
  | some newData =>
    let oldData := load_csv yesterdayFile
    let diff := compare_csvs newData oldData
    if saveOk then
      { savedFile := some (save_csv newData),
        emailAttempt := some
          { recipients := parseReceivers receiverRaw,
            total := newData.length,
            changes := diff },
        crashed := false }
    else
      { savedFile := none, emailAttempt := none, crashed := true }

/-! ## Helper lemmas -/

lemma insertSorted_perm (s : String) (l : List String) :
    (insertSorted s l).Perm (s :: l) := by
  induction l with
  | nil => simp [insertSorted]
  | cons t ts ih =>
    simp only [insertSorted]
    split
    · exact List.Perm.refl _
    · exact (ih.cons t).trans (List.Perm.swap s t ts)

lemma sortNames_perm (l : List String) : (sortNames l).Perm l := by
  induction l with
  | nil => simp [sortNames]
  | cons s ss ih =>
    exact (insertSorted_perm s (sortNames ss)).trans (ih.cons s)

lemma parseCell_eq_some {c s : String} (h : parseCell c = some s) : c = s := by
  unfold parseCell at h
  split at h
  · exact absurd h (by simp)
  · exact Option.some.inj h

lemma filterMap_parseCell_of_valid (l : List String)
    (h : ∀ s ∈ l, parseCell s = some s) : l.filterMap parseCell = l := by
  induction l with
  | nil => rfl
  | cons t ts ih =>
    rw [List.filterMap_cons, h t (List.mem_cons_self t ts),
      ih (fun s hs => h s (List.mem_cons_of_mem t hs))]

/-! ## Claims -/

/-- C1: for all input sets A (today) and B (yesterday), the added and removed
key sets of `compare_csvs` are disjoint after normalization, and the
normalized form of A equals the normalized form of B, union the added keys,
minus the removed keys. -/
theorem compare_diff_set_identity (A B : List String) :
    Disjoint (addedKeys A B) (removedKeys A B) ∧
    (A.map normalizeName).toFinset =
      (((B.map normalizeName).toFinset ∪ addedKeys A B) \ removedKeys A B) := by
  constructor
  · simp only [addedKeys, removedKeys, Finset.disjoint_left, Finset.mem_sdiff]
    tauto
  · ext x
    simp only [addedKeys, removedKeys, Finset.mem_sdiff, Finset.mem_union]
    tauto

/-- C3: loading a snapshot for a date whose file does not exist returns the
empty set (and, being a total function, never fails). -/
theorem load_missing_file_empty : load_csv none = [] := rfl

/-- C2 counterexample: the round trip is not lossless for every valid set.
`"N/A"` is a legitimate project name (a non-empty string, non-blank after
trimming), `to_csv` writes it verbatim, but `read_csv` reads the field back
as missing (it is a default NA sentinel) and `dropna` deletes it: reloading
the saved one-element snapshot returns the empty set. -/
theorem round_trip_loses_na_sentinel :
    load_csv (some (save_csv ["N/A"])) = [] ∧ stripName "N/A" ≠ "" := by
  constructor
  · decide
  · decide

/-- C2 amended: snapshot round-trip holds for every set none of whose
entries is read back as missing by the CSV parser (no empty entries and no
pandas NA sentinels such as `"N/A"`): saving and reloading the dated
snapshot then returns the same set, up to row order (the save step sorts);
a set containing such a sentinel name silently loses it on reload. -/
theorem snapshot_round_trip (S : List String)
    (h : ∀ s ∈ S, parseCell s = some s) :
    (load_csv (some (save_csv S))).Perm S := by
  have hperm := sortNames_perm S
  have hvalid : ∀ s ∈ sortNames S, parseCell s = some s :=
    fun s hs => h s (hperm.mem_iff.mp hs)
  show ((sortNames S).filterMap parseCell).Perm S
  rw [filterMap_parseCell_of_valid _ hvalid]
  exact hperm

/-- Witness for C2 amended, at a concrete snapshot (also covering the sort). -/
theorem snapshot_round_trip_witness :
    (load_csv (some (save_csv ["b", "a"]))).Perm ["b", "a"] :=
  snapshot_round_trip ["b", "a"] (by decide)

/-- C4 counterexample: a whitespace-only cell is empty after trimming, yet
`load_csv` keeps it — `dropna` runs before any trimming, so only cells the
parser already read as missing are dropped. -/
theorem load_keeps_whitespace_only_entry :
    "  " ∈ load_csv (some ["  "]) ∧ stripName "  " = "" := by
  constructor
  · decide
  · decide

/-- C4 amended: `load_csv` drops exactly the entries the CSV parser reads as
missing (null cells, i.e. empty fields and NA sentinels); an entry that is
non-empty but blank after trimming is retained. -/
theorem load_drops_exactly_missing (cells : List String) (s : String) :
    s ∈ load_csv (some cells) ↔ s ∈ cells ∧ parseCell s = some s := by
  show s ∈ cells.filterMap parseCell ↔ _
  rw [List.mem_filterMap]
  constructor
  · rintro ⟨c, hc, hpc⟩
    have := parseCell_eq_some hpc
    subst this
    exact ⟨hc, hpc⟩
  · rintro ⟨hc, hpc⟩
    exact ⟨s, hc, hpc⟩

/-- C5 counterexample: two original names normalizing to the same key both
appear in the diff output — the display does not select exactly one
representative per normalized key. -/
theorem compare_two_representatives_same_key :
    compare_csvs ["Alpha", "alpha"] [] = [("Alpha", "Added"), ("alpha", "Added")] ∧
    normalizeName "Alpha" = normalizeName "alpha" := by
  constructor
  · decide
  · rfl

/-- C5 amended: the diff output lists, for each added (removed) key, every
original name of the new (old) input whose normalized form is that key —
possibly several per key — and, being a pure function of the two inputs,
the selection is deterministic. -/
theorem compare_display_membership (newL oldL : List String) (s : String) :
    ((s, "Added") ∈ compare_csvs newL oldL ↔
      s ∈ newL ∧ normalizeName s ∈ addedKeys newL oldL) ∧
    ((s, "Removed") ∈ compare_csvs newL oldL ↔
      s ∈ oldL ∧ normalizeName s ∈ removedKeys newL oldL) := by
  constructor
  · constructor
    · intro h
      rcases List.mem_append.mp h with h1 | h2
      · obtain ⟨a, ha, hpair⟩ := List.mem_map.mp h1
        obtain ⟨ha1, ha2⟩ := List.mem_filter.mp ha
        injection hpair with he1 he2
        subst he1
        exact ⟨ha1, of_decide_eq_true ha2⟩
      · obtain ⟨a, ha, hpair⟩ := List.mem_map.mp h2
        injection hpair with he1 he2
        exact absurd he2 (by decide)
    · rintro ⟨hs, hk⟩
      exact List.mem_append.mpr (Or.inl (List.mem_map.mpr
        ⟨s, List.mem_filter.mpr ⟨hs, decide_eq_true hk⟩, rfl⟩))
  · constructor
    · intro h
      rcases List.mem_append.mp h with h1 | h2
      · obtain ⟨a, ha, hpair⟩ := List.mem_map.mp h1
        injection hpair with he1 he2
        exact absurd he2 (by decide)
      · obtain ⟨a, ha, hpair⟩ := List.mem_map.mp h2
        obtain ⟨ha1, ha2⟩ := List.mem_filter.mp ha
        injection hpair with he1 he2
        subst he1
        exact ⟨ha1, of_decide_eq_true ha2⟩
    · rintro ⟨hs, hk⟩
      exact List.mem_append.mpr (Or.inr (List.mem_map.mpr
        ⟨s, List.mem_filter.mpr ⟨hs, decide_eq_true hk⟩, rfl⟩))

/-- C6: when the database fetch fails (`fetch_project_names` returns `None`),
the `if new_data is not None` guard skips the rest: no snapshot file is
written and no email is attempted, whatever the other conditions. -/
theorem fetch_failure_aborts (raw : String) (yest : Option (List String))
    (saveOk : Bool) :
    (run raw none yest saveOk).savedFile = none ∧
    (run raw none yest saveOk).emailAttempt = none := by
  exact ⟨rfl, rfl⟩

/-- C7 counterexample: after a successful fetch and diff, a failing `to_csv`
(no surrounding try/except) crashes the run, so the notification email is
never attempted — contradicting the claim that it still is. -/
theorem save_failure_email_not_attempted :
    (run "a@b.c" (some ["X"]) none false).emailAttempt = none ∧
    (run "a@b.c" (some ["X"]) none false).crashed = true := by
  exact ⟨rfl, rfl⟩

/-- C7 amended: whenever the snapshot save step fails after a successful
fetch and diff, the uncaught exception aborts the run and the notification
email is not attempted. -/
theorem save_failure_aborts (raw : String) (newData : List String)
    (yest : Option (List String)) :
    (run raw (some newData) yest false).emailAttempt = none ∧
    (run raw (some newData) yest false).crashed = true := by
  exact ⟨rfl, rfl⟩

/-- C8 counterexample: with an empty `EMAIL_RECEIVER` value the resolved
recipient list is empty, yet the run is not aborted at startup: the snapshot
is still written and the send is still attempted with zero recipients. -/
theorem empty_recipients_run_proceeds :
    parseReceivers "" = [] ∧
    (run "" (some ["A"]) none true).savedFile = some ["A"] ∧
    (run "" (some ["A"]) none true).emailAttempt =
      some { recipients := [], total := 1, changes := [("A", "Added")] } := by
  refine ⟨rfl, rfl, ?_⟩
  decide

/-- C8 amended: an empty resolved recipient list is not treated as a startup
configuration error; the run performs all its I/O (snapshot written) and
still attempts the send with zero recipients (whose SMTP failure is caught
and only logged inside `send_email`). -/
theorem empty_recipients_not_checked (raw : String) (newData : List String)
    (yest : Option (List String)) (h : parseReceivers raw = []) :
    (run raw (some newData) yest true).savedFile = some (save_csv newData) ∧
    ((run raw (some newData) yest true).emailAttempt.map
        EmailAttempt.recipients) = some [] := by
  refine ⟨rfl, ?_⟩
  show some (parseReceivers raw) = some []
  rw [h]

/-- Witness for C8 amended, at the empty raw recipient string. -/
theorem empty_recipients_not_checked_witness :
    (run "" (some ["A"]) none true).savedFile = some (save_csv ["A"]) ∧
    ((run "" (some ["A"]) none true).emailAttempt.map
        EmailAttempt.recipients) = some [] :=
  empty_recipients_not_checked "" ["A"] none (by decide)

/-- C9: end-to-end scenario.  Today's fetch returns `["Gamma","alpha","Beta"]`
and yesterday's snapshot holds `["Alpha","Beta"]`: the snapshot file is
written sorted ascending with original casing `["Beta","Gamma","alpha"]`,
the diff is exactly one `"Added"` row for `"Gamma"` and no `"Removed"` row,
and the email reports total = 3 together with that one addition. -/
theorem end_to_end_scenario :
    (run "x@y.z" (some ["Gamma", "alpha", "Beta"]) (some ["Alpha", "Beta"])
        true).savedFile = some ["Beta", "Gamma", "alpha"] ∧
    (run "x@y.z" (some ["Gamma", "alpha", "Beta"]) (some ["Alpha", "Beta"])
        true).emailAttempt =
      some { recipients := ["x@y.z"], total := 3,
             changes := [("Gamma", "Added")] } := by
  constructor
  · decide
  · decide

/-- C10: the total reported in the email body is `len(new_data)`, the number
of raw distinct strings the query returned, counted before any
normalization; in particular two names differing only in case both count,
although they share one normalized identity. -/
theorem email_total_counts_raw_names (raw : String) (newData : List String)
    (yest : Option (List String)) :
    ((run raw (some newData) yest true).emailAttempt.map EmailAttempt.total) =
      some newData.length ∧
    ((run raw (some ["Alpha", "alpha"]) yest true).emailAttempt.map
        EmailAttempt.total) = some 2 ∧
    normalizeName "Alpha" = normalizeName "alpha" := by
  refine ⟨rfl, rfl, ?_⟩
  decide
